import Mathlib

/-!
Formal model of the lemobar spiral-scan crawler (`src/main.go`).

The development embeds, as executable Lean definitions:
* the spiral path walk of `spiralScan` (grid position, direction index,
  leg length and the two nested loop counters);
* the per-point scan loop of `spiralScan` as a step function on an explicit
  worker state (budget guard, fetch, store writes, logging, pacing);
* the `INSERT OR IGNORE` write of the `lemobar_areas` table (primary key
  `area_id`);
* the JSON envelope decoding performed by `fetchAreas` on the `ApiResponse`
  and `Area` structs (including the `,string` tags on latitude/longitude);
* the precondition checks of `startDataCollection`.

Wall-clock time is modelled by abstract natural-number time units: each scan
step adds the configured interval (the pacing sleep) plus an oracle-supplied
amount of time (the fetch and processing time) to the elapsed counter.
The remote HTTP layer is an oracle indexed by the call number; float64
coordinate arithmetic is modelled over `ℚ` (exact for every value any claim
mentions).
-/

/-- The direction table of `spiralScan`: `dirs := []Dir{{1,0},{0,1},{-1,0},{0,-1}}`. -/
def dirs : List (Int × Int) := [(1, 0), (0, 1), (-1, 0), (0, -1)]

/-- Loop state of the spiral walk in `spiralScan`: grid position `x, y`,
direction index `dirIdx`, current leg length `dist`, and the two loop
counters of the nested `for` loops — `i` (which of the two legs at the
current `dist`) and `j` (steps already taken on the current leg). -/
structure SpiralState where
  x : Int
  y : Int
  dirIdx : Nat
  dist : Nat
  i : Nat
  j : Nat
deriving DecidableEq

/-- Initial spiral state of `spiralScan`: `x, y, dirIdx, dist := 0, 0, 0, 1`,
with both loop counters at zero. -/
def spiralInit : SpiralState := ⟨0, 0, 0, 1, 0, 0⟩

/-- One advance of the spiral walk, exactly as the loop body of `spiralScan`
moves after emitting a point: step one cell in the current direction, and on
completing a leg cycle `dirIdx = (dirIdx+1) % 4`; after two legs at the same
`dist`, increment `dist`. -/
def spiralNext (s : SpiralState) : SpiralState :=
  let d := dirs.getD s.dirIdx (0, 0)
  if s.j + 1 < s.dist then
    { s with x := s.x + d.1, y := s.y + d.2, j := s.j + 1 }
  else if s.i + 1 < 2 then
    { s with x := s.x + d.1, y := s.y + d.2, dirIdx := (s.dirIdx + 1) % 4,
             i := s.i + 1, j := 0 }
  else
    { s with x := s.x + d.1, y := s.y + d.2, dirIdx := (s.dirIdx + 1) % 4,
             dist := s.dist + 1, i := 0, j := 0 }

/-- The grid offset emitted at step `n` of the spiral walk (the `(x, y)` the
scan loop reads at its `n`-th point, counting from 0). -/
def spiralPos (n : Nat) : Int × Int :=
  ((spiralNext^[n] spiralInit).x, (spiralNext^[n] spiralInit).y)

/-- The first `N` grid offsets emitted by the spiral walk. -/
def spiralPoints (N : Nat) : List (Int × Int) :=
  (List.range N).map spiralPos

/-! Analysis view of the spiral walk: decomposition into legs.  Leg `k`
(`k = 0, 1, 2, ...`) has length `k / 2 + 1` and direction `k % 4`; these
definitions are related to `spiralNext` by the theorems below. -/

/-- Length of the `k`-th leg of the spiral (legs come in pairs of equal
length `1, 1, 2, 2, 3, 3, ...`). -/
def legLen (k : Nat) : Nat := k / 2 + 1

/-- Grid position at which the `k`-th leg starts. -/
def legStartPos (k : Nat) : Int × Int :=
  let m : Int := (k / 4 : Nat)
  if k % 4 = 0 then (-m, -m)
  else if k % 4 = 1 then (m + 1, -m)
  else if k % 4 = 2 then (m + 1, m + 1)
  else (-(m + 1), m + 1)

/-- The full spiral state after emitting `j` points of leg `k`. -/
def stateAt (k j : Nat) : SpiralState :=
  { x := (legStartPos k).1 + (j : Int) * (dirs.getD (k % 4) (0, 0)).1
    y := (legStartPos k).2 + (j : Int) * (dirs.getD (k % 4) (0, 0)).2
    dirIdx := k % 4
    dist := legLen k
    i := k % 2
    j := j }

/-- Decomposition of a step count into (leg index, offset on leg). -/
def legOff : Nat → Nat × Nat
  | 0 => (0, 0)
  | n + 1 =>
    let p := legOff n
    if p.2 + 1 < legLen p.1 then (p.1, p.2 + 1) else (p.1 + 1, 0)

/-- Number of points emitted before leg `k` begins. -/
def legBase : Nat → Nat
  | 0 => 0
  | k + 1 => legBase k + legLen k

/-! The data model: an `Area` record as decoded from the API and stored in
the `lemobar_areas` table. -/

/-- The Go `Area` struct (`ID`, `AreaName`, `Longitude`, `Latitude`,
`DetailAddress`, `TotalDevice`, `FreeDevice`, `WaitDuration`); float64
fields are modelled over `ℚ`. -/
structure Area where
  ID : Int
  AreaName : String
  Longitude : ℚ
  Latitude : ℚ
  DetailAddress : String
  TotalDevice : Int
  FreeDevice : Int
  WaitDuration : Int
deriving DecidableEq

/-- The `INSERT OR IGNORE INTO lemobar_areas ...` write: `area_id` is the
primary key, so a row whose `area_id` already exists is skipped and an
otherwise-new row is appended. -/
def insertOrIgnore (store : List Area) (a : Area) : List Area :=
  if store.any (fun r => r.ID == a.ID) then store else store ++ [a]

/-- A log line produced by the scan loop: the success line
`"[...] (lat, lng) → n 点"` (with the record count) or the failure line
`"[...] ✗ (lat, lng) - err"`.  The code emits exactly one of these per
scanned point and nothing else; in particular no log line exists for a
failed `insertStmt.Exec` (its error is discarded by `_, _ =`). -/
inductive LogEntry where
  | ok (count : Nat)
  | err
deriving DecidableEq

/-- The configuration fields `spiralScan` reads (`MaxBlocks`, `Interval`,
`Duration` in abstract time units) together with the worker's center
coordinates. -/
structure WorkerConfig where
  maxBlocks : Nat
  interval : Nat
  duration : Nat
  centerLat : ℚ
  centerLng : ℚ

/-- The external world one worker interacts with, as oracles indexed by the
worker's call counter: `fetch n` is the outcome of the `n`-th `fetchAreas`
call (`none` = transport error, JSON decode error, or non-200 code);
`stepTime n` is the time the `n`-th step spends beyond the pacing sleep;
`writeOk w` says whether the `w`-th `insertStmt.Exec` in this worker
succeeds at the store level. -/
structure ScanEnv where
  fetch : Nat → Option (List Area)
  stepTime : Nat → Nat
  writeOk : Nat → Bool

/-- Full state of one scan worker: the spiral walk state, the `scanned`
counter of the code, the number of API calls made, the number of pacing
sleeps performed, the number of store-write attempts, elapsed time, the
store contents, the log, the list of queried `(lng, lat)` coordinate pairs
(in the order the two values are substituted into the URL template:
longitude first), and whether the loop has terminated. -/
structure WorkerState where
  spiral : SpiralState
  scanned : Nat
  calls : Nat
  sleepCount : Nat
  writeAttempts : Nat
  elapsed : Nat
  store : List Area
  logs : List LogEntry
  queried : List (ℚ × ℚ)
  done : Bool

/-- Grid step size of `spiralScan`: `step := 0.03`. -/
def step : ℚ := 0.03

/-- Attempt to write each fetched record to the store in order, exactly as
the loop `for _, a := range areas { _, _ = insertStmt.Exec(...) }`: a write
whose `writeOk` oracle says it fails leaves the store unchanged, and its
error is discarded.  Returns the new store and write-attempt counter. -/
def insertAll (env : ScanEnv) : Nat → List Area → List Area → List Area × Nat
  | w, store, [] => (store, w)
  | w, store, a :: rest =>
    insertAll env (w + 1) (if env.writeOk w then insertOrIgnore store a else store) rest

/-- Initial worker state: fresh spiral state, all counters zero, empty
store and log, not terminated. -/
def workerInit : WorkerState :=
  { spiral := spiralInit, scanned := 0, calls := 0, sleepCount := 0,
    writeAttempts := 0, elapsed := 0, store := [], logs := [], queried := [],
    done := false }

/-- One iteration of the scan loop of `spiralScan`.  First the budget guard
(`scanned >= config.MaxBlocks || time.Since(startTime) >= config.Duration`,
equivalently the negation of the outer loop condition) is checked; if it
fires the worker terminates without touching anything else.  Otherwise a
full step runs: compute `lng, lat` from the spiral offset and the 0.03 step,
call `fetchAreas`, on success write every record (errors of individual
writes silently discarded) and log the success line, on failure log the
failure line, advance the spiral, increment `scanned`, and sleep the
configured interval (the elapsed clock grows by the interval plus the
oracle's fetch/processing time). -/
def workerStep (cfg : WorkerConfig) (env : ScanEnv) (s : WorkerState) : WorkerState :=
  if s.done then s
  else if cfg.maxBlocks ≤ s.scanned ∨ cfg.duration ≤ s.elapsed then
    { s with done := true }
  else
    let lng := cfg.centerLng + (s.spiral.x : ℚ) * step
    let lat := cfg.centerLat + (s.spiral.y : ℚ) * step
    match env.fetch s.calls with
    | some areas =>
      { spiral := spiralNext s.spiral
        scanned := s.scanned + 1
        calls := s.calls + 1
        sleepCount := s.sleepCount + 1
        writeAttempts := (insertAll env s.writeAttempts s.store areas).2
        elapsed := s.elapsed + cfg.interval + env.stepTime s.calls
        store := (insertAll env s.writeAttempts s.store areas).1
        logs := s.logs ++ [LogEntry.ok areas.length]
        queried := s.queried ++ [(lng, lat)]
        done := false }
    | none =>
      { spiral := spiralNext s.spiral
        scanned := s.scanned + 1
        calls := s.calls + 1
        sleepCount := s.sleepCount + 1
        writeAttempts := s.writeAttempts
        elapsed := s.elapsed + cfg.interval + env.stepTime s.calls
        store := s.store
        logs := s.logs ++ [LogEntry.err]
        queried := s.queried ++ [(lng, lat)]
        done := false }

/-- The worker after `n` guard-check/step opportunities. -/
def runWorker (cfg : WorkerConfig) (env : ScanEnv) (n : Nat) : WorkerState :=
  (workerStep cfg env)^[n] workerInit

/-! JSON model for the body decoding done by `fetchAreas` via
`json.NewDecoder(resp.Body).Decode(&result)` into the `ApiResponse` /
`Area` structs. -/

/-- A JSON value.  `num` carries the numeric value as a rational. -/
inductive Json where
  | null : Json
  | bool (b : Bool) : Json
  | num (q : ℚ) : Json
  | str (s : String) : Json
  | arr (elems : List Json) : Json
  | obj (fields : List (String × Json)) : Json

/-- Field lookup in a JSON object (first binding wins). -/
def lookupField (fields : List (String × Json)) (name : String) : Option Json :=
  match fields with
  | [] => none
  | (k, v) :: rest => if k = name then some v else lookupField rest name

/-- Numeric value of a list of decimal digit characters. -/
def digitsVal (cs : List Char) : Nat :=
  cs.foldl (fun acc c => 10 * acc + (c.toNat - 48)) 0

/-- Parse an unsigned decimal number (digits, optionally a dot and more
digits), as the JSON number grammar inside a `,string`-tagged field. -/
def parseUnsigned (cs : List Char) : Option ℚ :=
  let intPart := cs.takeWhile Char.isDigit
  let rest := cs.dropWhile Char.isDigit
  if intPart.isEmpty then none
  else
    match rest with
    | [] => some (digitsVal intPart : ℚ)
    | '.' :: frac =>
      if frac.isEmpty ∨ ¬ frac.all Char.isDigit then none
      else some ((digitsVal intPart : ℚ) + (digitsVal frac : ℚ) / (10 : ℚ) ^ frac.length)
    | _ => none

/-- Parse a decimal number with optional leading minus sign. -/
def parseQ (s : String) : Option ℚ :=
  match s.toList with
  | '-' :: cs => (parseUnsigned cs).map (fun q => -q)
  | cs => parseUnsigned cs

/-- Decode a Go `int` field: absent or `null` leaves the zero value, an
integral JSON number is taken, anything else is a type error. -/
def getIntField (fields : List (String × Json)) (name : String) : Option Int :=
  match lookupField fields name with
  | none => some 0
  | some Json.null => some 0
  | some (Json.num q) => if q.den = 1 then some q.num else none
  | some _ => none

/-- Decode a Go `string` field: absent or `null` leaves the zero value, a
JSON string is taken, anything else is a type error. -/
def getStringField (fields : List (String × Json)) (name : String) : Option String :=
  match lookupField fields name with
  | none => some ""
  | some Json.null => some ""
  | some (Json.str s) => some s
  | some _ => none

/-- Decode a Go `float64` field carrying the `,string` tag (as `longitude`
and `latitude` of `Area` do): the value must be a JSON *string* that itself
parses as a number; in particular a bare JSON number is rejected (Go:
"invalid use of ,string struct tag, trying to unmarshal unquoted value"). -/
def getFloatStringField (fields : List (String × Json)) (name : String) : Option ℚ :=
  match lookupField fields name with
  | none => some 0
  | some Json.null => some 0
  | some (Json.str s) => parseQ s
  | some _ => none

/-- Decode one element of `data.records` into the `Area` struct, per the
struct tags `id`, `areaName`, `longitude,string`, `latitude,string`,
`detailAddress`, `totalDeviceNum`, `freeDeviceNum`, `waitDuration`. -/
def decodeArea (j : Json) : Option Area :=
  match j with
  | Json.null => some ⟨0, "", 0, 0, "", 0, 0, 0⟩
  | Json.obj fields => do
    let id ← getIntField fields "id"
    let areaName ← getStringField fields "areaName"
    let longitude ← getFloatStringField fields "longitude"
    let latitude ← getFloatStringField fields "latitude"
    let detailAddress ← getStringField fields "detailAddress"
    let totalDevice ← getIntField fields "totalDeviceNum"
    let freeDevice ← getIntField fields "freeDeviceNum"
    let waitDuration ← getIntField fields "waitDuration"
    pure ⟨id, areaName, longitude, latitude, detailAddress, totalDevice,
          freeDevice, waitDuration⟩
  | _ => none

/-- Decode the `records` array of `data`. -/
def decodeRecords (j : Option Json) : Option (List Area) :=
  match j with
  | none => some []
  | some Json.null => some []
  | some (Json.arr xs) => xs.mapM decodeArea
  | some _ => none

/-- Decode the nested `data` object. -/
def decodeData (j : Option Json) : Option (List Area) :=
  match j with
  | none => some []
  | some Json.null => some []
  | some (Json.obj fields) => decodeRecords (lookupField fields "records")
  | some _ => none

/-- The decoded `ApiResponse`: top-level `code` and `data.records`. -/
structure ApiResponse where
  code : Int
  records : List Area
deriving DecidableEq

/-- Decode a JSON body into the `ApiResponse` struct. -/
def decodeApiResponse (j : Json) : Option ApiResponse :=
  match j with
  | Json.null => some ⟨0, []⟩
  | Json.obj fields => do
    let code ← getIntField fields "code"
    let records ← decodeData (lookupField fields "data")
    pure ⟨code, records⟩
  | _ => none

/-- The result path of `fetchAreas`.  The argument models the HTTP exchange:
`none` = transport failure (including the 8-second client timeout),
`some none` = a response whose body is not valid JSON, `some (some j)` = a
response whose body parses as the JSON value `j`.  Per the code, a decode
error or a top-level `code != 200` yields a failure; otherwise the
`data.records` array (possibly empty) is returned. -/
def fetchAreas (r : Option (Option Json)) : Option (List Area) :=
  match r with
  | none => none
  | some none => none
  | some (some j) =>
    match decodeApiResponse j with
    | none => none
    | some res => if res.code = 200 then some res.records else none

/-! Model of `startDataCollection`'s launch preconditions. -/

/-- The Go `Center` struct. -/
structure Center where
  name : String
  lat : ℚ
  lng : ℚ

/-- The fixed 24-city centers list of `startDataCollection`. -/
def centers : List Center :=
  [⟨"北京", 39.9042, 116.4074⟩, ⟨"上海", 31.2304, 121.4737⟩, ⟨"广州", 23.1291, 113.2644⟩,
   ⟨"深圳", 22.5431, 114.0579⟩, ⟨"杭州", 30.2741, 120.1551⟩, ⟨"南京", 32.0603, 118.7969⟩,
   ⟨"成都", 30.5728, 104.0668⟩, ⟨"重庆", 29.5630, 106.5516⟩, ⟨"武汉", 30.5928, 114.3055⟩,
   ⟨"西安", 34.3416, 108.9398⟩, ⟨"天津", 39.3434, 117.3616⟩, ⟨"苏州", 31.2989, 120.5853⟩,
   ⟨"郑州", 34.7466, 113.6254⟩, ⟨"长沙", 28.2282, 112.9388⟩, ⟨"青岛", 36.0671, 120.3826⟩,
   ⟨"宁波", 29.8683, 121.5440⟩, ⟨"佛山", 23.0215, 113.1214⟩, ⟨"合肥", 31.8206, 117.2272⟩,
   ⟨"无锡", 31.4912, 120.3119⟩, ⟨"厦门", 24.4798, 118.0894⟩, ⟨"大连", 38.9140, 121.6147⟩,
   ⟨"南昌", 28.6829, 115.8582⟩, ⟨"昆明", 25.0389, 102.7183⟩, ⟨"常州", 31.8107, 119.9741⟩]

/-- How an invocation of `startDataCollection` ends before (or at) worker
launch. -/
inductive StartOutcome where
  | missingAuth : StartOutcome
  | cancelled : StartOutcome
  | dbOpenFailed : StartOutcome
  | launched : StartOutcome
deriving DecidableEq

/-- Observable result of `startDataCollection` up to worker launch: the
outcome, whether the `CREATE TABLE` statement was executed against the
store, and how many workers were launched. -/
structure StartResult where
  outcome : StartOutcome
  createdTable : Bool
  workersLaunched : Nat
deriving DecidableEq

/-- Model of Go `strings.ToLower` (character-wise lowercasing; for the
ASCII answers compared against `"y"`/`"yes"` this agrees with Go, since
`'y'`, `'e'`, `'s'` are the lowercase images only of their ASCII
uppercase forms). -/
def toLowerStr (s : String) : String := String.mk (s.data.map Char.toLower)

/-- The sequential preconditions of `startDataCollection` in source order:
(1) `globalConfig.Authorization == ""` aborts at once (before the database
is opened, the table is created, or any worker starts); (2) the user's
confirmation answer, lowercased, must be `"y"` or `"yes"`, else the
collection is cancelled; (3) `sql.Open` must succeed; then the table is
created and one worker per center is launched. -/
def startDataCollection (auth confirm : String) (dbOpenOk : Bool) : StartResult :=
  if auth = "" then ⟨StartOutcome.missingAuth, false, 0⟩
  else if toLowerStr confirm ≠ "y" ∧ toLowerStr confirm ≠ "yes" then
    ⟨StartOutcome.cancelled, false, 0⟩
  else if dbOpenOk = false then ⟨StartOutcome.dbOpenFailed, false, 0⟩
  else ⟨StartOutcome.launched, true, centers.length⟩

/-! Concrete sample data used by witness theorems. -/

/-- A sample worker configuration: budget of 2 points, interval 1, duration 100. -/
def cfgA : WorkerConfig := ⟨2, 1, 100, 0, 0⟩

/-- A sample worker configuration with a zero point budget. -/
def cfgZero : WorkerConfig := ⟨0, 1, 5, 0, 0⟩

/-- The configuration of the four-point scenario: budget 4, center (0, 0). -/
def cfgFour : WorkerConfig := ⟨4, 0, 7, 0, 0⟩

/-- The configuration of the four-point scenario with duration `d`:
budget 4 points, no extra pacing time, center (0, 0). -/
def cfgFourD (d : Nat) : WorkerConfig := ⟨4, 0, d, 0, 0⟩

/-- An environment that answers every call with the single record `rec`,
takes no extra time, and whose writes succeed. -/
def envRec (rec : Area) : ScanEnv := ⟨fun _ => some [rec], fun _ => 0, fun _ => true⟩

/-- An environment whose API calls all fail. -/
def envNone : ScanEnv := ⟨fun _ => none, fun _ => 0, fun _ => true⟩

/-- An environment whose API calls all return an empty record list. -/
def envEmpty : ScanEnv := ⟨fun _ => some [], fun _ => 0, fun _ => true⟩

/-- A sample record with id 1. -/
def recOne : Area := ⟨1, "A", 0, 0, "addr", 1, 1, 0⟩

/-- A different sample record that reuses id 1. -/
def recOneB : Area := ⟨1, "B", 2, 3, "other", 5, 6, 7⟩

/-- An environment whose API calls all return the single record `recOne`. -/
def envRecOne : ScanEnv := ⟨fun _ => some [recOne], fun _ => 0, fun _ => true⟩

/-- An environment that returns `recOne` but whose store writes all fail. -/
def envWriteFail : ScanEnv := ⟨fun _ => some [recOne], fun _ => 0, fun _ => false⟩

/-- Fields of a response body that is valid JSON with top-level `code` 200
but whose single record is ill-typed (`totalDeviceNum` given as a JSON
string where the `Area` struct wants an integer). -/
def badBodyFields : List (String × Json) :=
  [("code", Json.num 200),
   ("data", Json.obj [("records", Json.arr
     [Json.obj [("id", Json.num 1), ("totalDeviceNum", Json.str "3")]])])]

/-- Fields of a response body that is valid JSON with top-level `code` 200
but whose single record carries `latitude` as a bare JSON number. -/
def numLatFields : List (String × Json) :=
  [("code", Json.num 200),
   ("data", Json.obj [("records", Json.arr
     [Json.obj [("id", Json.num 1), ("latitude", Json.num (3 / 2))]])])]

/-- Fields of a well-formed record object (latitude and longitude as JSON
strings, per the `,string` struct tags). -/
def goodRecFields : List (String × Json) :=
  [("id", Json.num 7), ("areaName", Json.str "A"),
   ("longitude", Json.str "121"), ("latitude", Json.str "-31"),
   ("detailAddress", Json.str "addr"), ("totalDeviceNum", Json.num 3),
   ("freeDeviceNum", Json.num 2), ("waitDuration", Json.num 0)]

/-- The `Area` record that `goodRecFields` decodes to. -/
def goodRec : Area := ⟨7, "A", 121, -31, "addr", 3, 2, 0⟩

/-- A fully well-formed response body with `code` 200 and one record. -/
def goodBody : Json :=
  Json.obj [("code", Json.num 200),
    ("data", Json.obj [("records", Json.arr [Json.obj goodRecFields])])]

/-- The `ApiResponse` that `goodBody` decodes to. -/
def goodResponse : ApiResponse := ⟨200, [goodRec]⟩

/-! Theorems.  First the spiral-walk analysis: the iterated `spiralNext`
walk coincides with the leg decomposition, from which injectivity of the
emitted point sequence follows. -/

theorem dirsD0 : dirs.getD 0 (0, 0) = ((1 : Int), (0 : Int)) := by decide

theorem dirsD1 : dirs.getD 1 (0, 0) = ((0 : Int), (1 : Int)) := by decide

theorem dirsD2 : dirs.getD 2 (0, 0) = ((-1 : Int), (0 : Int)) := by decide

theorem dirsD3 : dirs.getD 3 (0, 0) = ((0 : Int), (-1 : Int)) := by decide

theorem stateAt_step (k j : Nat) (h : j + 1 < legLen k) :
    spiralNext (stateAt k j) = stateAt k (j + 1) := by
  simp only [spiralNext, stateAt]
  rw [if_pos h]
  simp only [SpiralState.mk.injEq, and_true, true_and]
  constructor <;> (push_cast; ring)

theorem stateAt_legEnd0 (m : Nat) :
    spiralNext (stateAt (4 * m) (legLen (4 * m) - 1)) = stateAt (4 * m + 1) 0 := by
  have e1 : (4 * m) % 4 = 0 := by omega
  have e2 : (4 * m) / 4 = m := by omega
  have e3 : legLen (4 * m) = 2 * m + 1 := by unfold legLen; omega
  have e4 : (4 * m + 1) % 4 = 1 := by omega
  have e5 : (4 * m + 1) / 4 = m := by omega
  have e6 : legLen (4 * m + 1) = 2 * m + 1 := by unfold legLen; omega
  have e7 : (4 * m) % 2 = 0 := by omega
  have e8 : (4 * m + 1) % 2 = 1 := by omega
  have e9 : 2 * m + 1 - 1 = 2 * m := by omega
  simp only [spiralNext, stateAt, legStartPos, e1, e2, e3, e4, e5, e6, e7, e8, e9,
    dirsD0, dirsD1]
  norm_num
  all_goals omega

theorem stateAt_legEnd1 (m : Nat) :
    spiralNext (stateAt (4 * m + 1) (legLen (4 * m + 1) - 1)) = stateAt (4 * m + 2) 0 := by
  have e1 : (4 * m + 1) % 4 = 1 := by omega
  have e2 : (4 * m + 1) / 4 = m := by omega
  have e3 : legLen (4 * m + 1) = 2 * m + 1 := by unfold legLen; omega
  have e4 : (4 * m + 2) % 4 = 2 := by omega
  have e5 : (4 * m + 2) / 4 = m := by omega
  have e6 : legLen (4 * m + 2) = 2 * m + 2 := by unfold legLen; omega
  have e7 : (4 * m + 1) % 2 = 1 := by omega
  have e8 : (4 * m + 2) % 2 = 0 := by omega
  have e9 : 2 * m + 1 - 1 = 2 * m := by omega
  simp only [spiralNext, stateAt, legStartPos, e1, e2, e3, e4, e5, e6, e7, e8, e9,
    dirsD1, dirsD2]
  norm_num
  all_goals omega

theorem stateAt_legEnd2 (m : Nat) :
    spiralNext (stateAt (4 * m + 2) (legLen (4 * m + 2) - 1)) = stateAt (4 * m + 3) 0 := by
  have e1 : (4 * m + 2) % 4 = 2 := by omega
  have e2 : (4 * m + 2) / 4 = m := by omega
  have e3 : legLen (4 * m + 2) = 2 * m + 2 := by unfold legLen; omega
  have e4 : (4 * m + 3) % 4 = 3 := by omega
  have e5 : (4 * m + 3) / 4 = m := by omega
  have e6 : legLen (4 * m + 3) = 2 * m + 2 := by unfold legLen; omega
  have e7 : (4 * m + 2) % 2 = 0 := by omega
  have e8 : (4 * m + 3) % 2 = 1 := by omega
  have e9 : 2 * m + 2 - 1 = 2 * m + 1 := by omega
  simp only [spiralNext, stateAt, legStartPos, e1, e2, e3, e4, e5, e6, e7, e8, e9,
    dirsD2, dirsD3]
  norm_num
  all_goals omega

theorem stateAt_legEnd3 (m : Nat) :
    spiralNext (stateAt (4 * m + 3) (legLen (4 * m + 3) - 1)) = stateAt (4 * m + 4) 0 := by
  have e1 : (4 * m + 3) % 4 = 3 := by omega
  have e2 : (4 * m + 3) / 4 = m := by omega
  have e3 : legLen (4 * m + 3) = 2 * m + 2 := by unfold legLen; omega
  have e4 : (4 * m + 4) % 4 = 0 := by omega
  have e5 : (4 * m + 4) / 4 = m + 1 := by omega
  have e6 : legLen (4 * m + 4) = 2 * m + 3 := by unfold legLen; omega
  have e7 : (4 * m + 3) % 2 = 1 := by omega
  have e8 : (4 * m + 4) % 2 = 0 := by omega
  have e9 : 2 * m + 2 - 1 = 2 * m + 1 := by omega
  simp only [spiralNext, stateAt, legStartPos, e1, e2, e3, e4, e5, e6, e7, e8, e9,
    dirsD3, dirsD0]
  norm_num
  all_goals omega

theorem stateAt_legEnd (k : Nat) :
    spiralNext (stateAt k (legLen k - 1)) = stateAt (k + 1) 0 := by
  obtain ⟨m, r, hr, rfl⟩ : ∃ m r, r < 4 ∧ k = 4 * m + r :=
    ⟨k / 4, k % 4, Nat.mod_lt _ (by omega), (Nat.div_add_mod k 4).symm⟩
  interval_cases r
  · simpa using stateAt_legEnd0 m
  · exact stateAt_legEnd1 m
  · exact stateAt_legEnd2 m
  · exact stateAt_legEnd3 m

theorem legOff_snd_lt (n : Nat) : (legOff n).2 < legLen (legOff n).1 := by
  induction n with
  | zero => simp [legOff, legLen]
  | succ n ih =>
    simp only [legOff]
    split
    · next h => simpa using h
    · simp only [legLen]
      omega

theorem spiralIter_eq_stateAt (n : Nat) :
    spiralNext^[n] spiralInit = stateAt (legOff n).1 (legOff n).2 := by
  induction n with
  | zero => decide
  | succ n ih =>
    rw [Function.iterate_succ_apply', ih]
    rcases lt_or_ge ((legOff n).2 + 1) (legLen (legOff n).1) with h | h
    · have hoff : legOff (n + 1) = ((legOff n).1, (legOff n).2 + 1) := by
        simp only [legOff]
        rw [if_pos h]
      rw [hoff, stateAt_step _ _ h]
    · have hlt := legOff_snd_lt n
      have hj : (legOff n).2 = legLen (legOff n).1 - 1 := by omega
      have hoff : legOff (n + 1) = ((legOff n).1 + 1, 0) := by
        simp only [legOff]
        rw [if_neg (by omega)]
      rw [hoff, hj, stateAt_legEnd]

theorem legBase_legOff (n : Nat) : legBase (legOff n).1 + (legOff n).2 = n := by
  induction n with
  | zero => simp [legOff, legBase]
  | succ n ih =>
    have hlt := legOff_snd_lt n
    simp only [legOff]
    split
    · next h => simpa [← Nat.add_assoc] using ih
    · next h =>
      simp only [legBase]
      omega

theorem stateAt_pos_inj (k j k' j' : Nat) (hj : j < legLen k) (hj' : j' < legLen k')
    (hx : (stateAt k j).x = (stateAt k' j').x)
    (hy : (stateAt k j).y = (stateAt k' j').y) : k = k' ∧ j = j' := by
  obtain ⟨m, r, hr, rfl⟩ : ∃ m r, r < 4 ∧ k = 4 * m + r :=
    ⟨k / 4, k % 4, Nat.mod_lt _ (by omega), (Nat.div_add_mod k 4).symm⟩
  obtain ⟨m2, r2, hr2, rfl⟩ : ∃ mb rb, rb < 4 ∧ k' = 4 * mb + rb :=
    ⟨k' / 4, k' % 4, Nat.mod_lt _ (by omega), (Nat.div_add_mod k' 4).symm⟩
  have d1 : (4 * m + r) % 4 = r := by omega
  have d2 : (4 * m + r) / 4 = m := by omega
  have d3 : (4 * m2 + r2) % 4 = r2 := by omega
  have d4 : (4 * m2 + r2) / 4 = m2 := by omega
  simp only [stateAt, legStartPos, legLen, d1, d2, d3, d4] at hx hy hj hj'
  interval_cases r <;> interval_cases r2 <;>
    simp only [dirsD0, dirsD1, dirsD2, dirsD3] at hx hy <;>
    norm_num at hx hy ⊢ <;>
    exact ⟨by omega, by omega⟩

theorem spiralPos_injective : Function.Injective spiralPos := by
  intro a b h
  have hx : (stateAt (legOff a).1 (legOff a).2).x = (stateAt (legOff b).1 (legOff b).2).x := by
    have := congrArg Prod.fst h
    simpa [spiralPos, spiralIter_eq_stateAt] using this
  have hy : (stateAt (legOff a).1 (legOff a).2).y = (stateAt (legOff b).1 (legOff b).2).y := by
    have := congrArg Prod.snd h
    simpa [spiralPos, spiralIter_eq_stateAt] using this
  obtain ⟨hk, hjj⟩ := stateAt_pos_inj _ _ _ _ (legOff_snd_lt a) (legOff_snd_lt b) hx hy
  have ha := legBase_legOff a
  have hb := legBase_legOff b
  rw [hk, hjj] at ha
  omega

/-- C1: for every `N ≥ 1` the first `N` grid offsets of the spiral walk of
`spiralScan` (from the initial state `x = 0, y = 0, dirIdx = 0, dist = 1`)
are pairwise distinct lattice points, and the first 12 offsets are exactly
(0,0),(1,0),(1,1),(0,1),(-1,1),(-1,0),(-1,-1),(0,-1),(1,-1),(2,-1),(2,0),(2,1). -/
theorem spiral_points_distinct_and_initial_segment (N : Nat) (h : 1 ≤ N) :
    (spiralPoints N).Nodup ∧
      spiralPoints 12 = [(0, 0), (1, 0), (1, 1), (0, 1), (-1, 1), (-1, 0),
        (-1, -1), (0, -1), (1, -1), (2, -1), (2, 0), (2, 1)] :=
  ⟨(List.nodup_range N).map spiralPos_injective, by decide⟩

/-- Witness for C1 at `N = 12`. -/
theorem spiral_points_distinct_and_initial_segment_witness :
    1 ≤ 12 ∧ ((spiralPoints 12).Nodup ∧
      spiralPoints 12 = [(0, 0), (1, 0), (1, 1), (0, 1), (-1, 1), (-1, 0),
        (-1, -1), (0, -1), (1, -1), (2, -1), (2, 0), (2, 1)]) :=
  ⟨by decide, spiral_points_distinct_and_initial_segment 12 (by decide)⟩

/-! Worker-loop lemmas. -/

theorem workerStep_done (cfg : WorkerConfig) (env : ScanEnv) (s : WorkerState)
    (h : s.done = true) : workerStep cfg env s = s := by
  simp [workerStep, h]

theorem workerStep_guard (cfg : WorkerConfig) (env : ScanEnv) (s : WorkerState)
    (hd : s.done = false) (hg : cfg.maxBlocks ≤ s.scanned ∨ cfg.duration ≤ s.elapsed) :
    workerStep cfg env s = { s with done := true } := by
  simp [workerStep, hd, hg]

theorem workerStep_body_ok (cfg : WorkerConfig) (env : ScanEnv) (s : WorkerState)
    (hd : s.done = false) (h1 : s.scanned < cfg.maxBlocks) (h2 : s.elapsed < cfg.duration)
    (areas : List Area) (hf : env.fetch s.calls = some areas) :
    workerStep cfg env s =
      { spiral := spiralNext s.spiral
        scanned := s.scanned + 1
        calls := s.calls + 1
        sleepCount := s.sleepCount + 1
        writeAttempts := (insertAll env s.writeAttempts s.store areas).2
        elapsed := s.elapsed + cfg.interval + env.stepTime s.calls
        store := (insertAll env s.writeAttempts s.store areas).1
        logs := s.logs ++ [LogEntry.ok areas.length]
        queried := s.queried ++ [(cfg.centerLng + (s.spiral.x : ℚ) * step,
                                  cfg.centerLat + (s.spiral.y : ℚ) * step)]
        done := false } := by
  have hg : ¬ (cfg.maxBlocks ≤ s.scanned ∨ cfg.duration ≤ s.elapsed) := by omega
  simp [workerStep, hd, hg, hf]

theorem workerStep_body_err (cfg : WorkerConfig) (env : ScanEnv) (s : WorkerState)
    (hd : s.done = false) (h1 : s.scanned < cfg.maxBlocks) (h2 : s.elapsed < cfg.duration)
    (hf : env.fetch s.calls = none) :
    workerStep cfg env s =
      { spiral := spiralNext s.spiral
        scanned := s.scanned + 1
        calls := s.calls + 1
        sleepCount := s.sleepCount + 1
        writeAttempts := s.writeAttempts
        elapsed := s.elapsed + cfg.interval + env.stepTime s.calls
        store := s.store
        logs := s.logs ++ [LogEntry.err]
        queried := s.queried ++ [(cfg.centerLng + (s.spiral.x : ℚ) * step,
                                  cfg.centerLat + (s.spiral.y : ℚ) * step)]
        done := false } := by
  have hg : ¬ (cfg.maxBlocks ≤ s.scanned ∨ cfg.duration ≤ s.elapsed) := by omega
  simp [workerStep, hd, hg, hf]

theorem runWorker_succ (cfg : WorkerConfig) (env : ScanEnv) (n : Nat) :
    runWorker cfg env (n + 1) = workerStep cfg env (runWorker cfg env n) :=
  Function.iterate_succ_apply' _ _ _

theorem iterate_step_done (cfg : WorkerConfig) (env : ScanEnv) (s : WorkerState)
    (h : s.done = true) (k : Nat) : (workerStep cfg env)^[k] s = s := by
  induction k with
  | zero => rfl
  | succ k ih => rw [Function.iterate_succ_apply, workerStep_done _ _ _ h, ih]

theorem run_frozen_after (cfg : WorkerConfig) (env : ScanEnv) (n : Nat)
    (h : (runWorker cfg env n).done = true) (m : Nat) (hm : n ≤ m) :
    runWorker cfg env m = runWorker cfg env n := by
  obtain ⟨k, rfl⟩ := Nat.exists_eq_add_of_le hm
  rw [runWorker, Nat.add_comm, Function.iterate_add_apply]
  exact iterate_step_done cfg env _ h k

theorem run_inv (cfg : WorkerConfig) (env : ScanEnv) (n : Nat) :
    (runWorker cfg env n).calls = (runWorker cfg env n).scanned ∧
    (runWorker cfg env n).sleepCount = (runWorker cfg env n).scanned ∧
    (runWorker cfg env n).logs.length = (runWorker cfg env n).scanned ∧
    (runWorker cfg env n).scanned ≤ cfg.maxBlocks ∧
    ((runWorker cfg env n).done = false → (runWorker cfg env n).scanned = n) ∧
    ((runWorker cfg env n).done = true →
      cfg.maxBlocks ≤ (runWorker cfg env n).scanned ∨
        cfg.duration ≤ (runWorker cfg env n).elapsed) := by
  induction n with
  | zero => simp [runWorker, workerInit]
  | succ n ih =>
    obtain ⟨ih1, ih2, ih3, ih4, ih5, ih6⟩ := ih
    rw [runWorker_succ]
    rcases hdone : (runWorker cfg env n).done with _ | _
    · by_cases hg : cfg.maxBlocks ≤ (runWorker cfg env n).scanned ∨
          cfg.duration ≤ (runWorker cfg env n).elapsed
      · rw [workerStep_guard _ _ _ hdone hg]
        exact ⟨ih1, ih2, ih3, ih4, by simp, fun _ => hg⟩
      · push_neg at hg
        rcases hf : env.fetch (runWorker cfg env n).calls with _ | areas
        · rw [workerStep_body_err _ _ _ hdone hg.1 hg.2 hf]
          refine ⟨by simp [ih1], by simp [ih2], by simp [ih3], by simp; omega,
            fun _ => by simp [ih5 hdone], by simp⟩
        · rw [workerStep_body_ok _ _ _ hdone hg.1 hg.2 areas hf]
          refine ⟨by simp [ih1], by simp [ih2], by simp [ih3], by simp; omega,
            fun _ => by simp [ih5 hdone], by simp⟩
    · rw [workerStep_done _ _ _ hdone]
      exact ⟨ih1, ih2, ih3, ih4, by simp [hdone], ih6⟩

/-- C2: for every point budget, a worker performs at most `maxBlocks` API
calls; the loop is terminated (at the latest) after `maxBlocks + 1` guard
checks; and with `maxBlocks = 0` the very first guard check terminates the
worker with zero API calls. -/
theorem worker_api_calls_bounded (cfg : WorkerConfig) (env : ScanEnv) (n : Nat) :
    (runWorker cfg env n).calls ≤ cfg.maxBlocks ∧
    (runWorker cfg env (cfg.maxBlocks + 1)).done = true ∧
    (cfg.maxBlocks = 0 → (runWorker cfg env 1).calls = 0 ∧
      (runWorker cfg env 1).done = true) := by
  have hb : ∀ m, (runWorker cfg env m).calls ≤ cfg.maxBlocks := fun m => by
    have h := run_inv cfg env m
    omega
  have hterm : (runWorker cfg env (cfg.maxBlocks + 1)).done = true := by
    rcases hdone : (runWorker cfg env cfg.maxBlocks).done with _ | _
    · have h5 := (run_inv cfg env cfg.maxBlocks).2.2.2.2.1 hdone
      rw [runWorker_succ, workerStep_guard _ _ _ hdone (Or.inl (by omega))]
    · rw [runWorker_succ, workerStep_done _ _ _ hdone]
      exact hdone
  refine ⟨hb n, hterm, fun h0 => ⟨?_, ?_⟩⟩
  · have := hb 1
    omega
  · simpa [h0] using hterm

/-- Witness for C2 with a zero budget. -/
theorem worker_api_calls_bounded_witness :
    (runWorker cfgZero envNone 3).calls ≤ cfgZero.maxBlocks ∧
    (runWorker cfgZero envNone (cfgZero.maxBlocks + 1)).done = true ∧
    (cfgZero.maxBlocks = 0 → (runWorker cfgZero envNone 1).calls = 0 ∧
      (runWorker cfgZero envNone 1).done = true) :=
  worker_api_calls_bounded cfgZero envNone 3

/-- C3: both budgets are checked before each point and never mid-step.  If
the guard passes at a state, the whole step completes — the fetch happens,
the store write of a successful fetch is applied, the log line is emitted,
and the pacing delay elapses (growing the clock past the check point
unconditionally) and the worker is not yet terminated.  Once either budget
is hit, no further call, write or sleep ever happens. -/
theorem worker_budget_checked_before_each_point (cfg : WorkerConfig) (env : ScanEnv) (n : Nat) :
    ((runWorker cfg env n).done = false →
      (runWorker cfg env n).scanned < cfg.maxBlocks →
      (runWorker cfg env n).elapsed < cfg.duration →
      (runWorker cfg env (n + 1)).calls = (runWorker cfg env n).calls + 1 ∧
      (runWorker cfg env (n + 1)).sleepCount = (runWorker cfg env n).sleepCount + 1 ∧
      (runWorker cfg env (n + 1)).logs.length = (runWorker cfg env n).logs.length + 1 ∧
      (runWorker cfg env (n + 1)).elapsed = (runWorker cfg env n).elapsed + cfg.interval +
        env.stepTime (runWorker cfg env n).calls ∧
      (∀ areas, env.fetch (runWorker cfg env n).calls = some areas →
        (runWorker cfg env (n + 1)).store =
          (insertAll env (runWorker cfg env n).writeAttempts
            (runWorker cfg env n).store areas).1)) ∧
    ((cfg.maxBlocks ≤ (runWorker cfg env n).scanned ∨
        cfg.duration ≤ (runWorker cfg env n).elapsed) →
      ∀ m, n ≤ m →
        (runWorker cfg env m).calls = (runWorker cfg env n).calls ∧
        (runWorker cfg env m).store = (runWorker cfg env n).store ∧
        (runWorker cfg env m).sleepCount = (runWorker cfg env n).sleepCount) := by
  constructor
  · intro hd h1 h2
    rcases hf : env.fetch (runWorker cfg env n).calls with _ | areas
    · rw [runWorker_succ, workerStep_body_err _ _ _ hd h1 h2 hf]
      refine ⟨rfl, rfl, by simp, rfl, ?_⟩
      intro areas2 hsome
      simp at hsome
    · rw [runWorker_succ, workerStep_body_ok _ _ _ hd h1 h2 areas hf]
      refine ⟨rfl, rfl, by simp, rfl, ?_⟩
      intro areas2 hsome
      injection hsome with hsome
      rw [← hsome]
  · intro hg m hm
    rcases hdone : (runWorker cfg env n).done with _ | _
    · have hstep : runWorker cfg env (n + 1) = { runWorker cfg env n with done := true } := by
        rw [runWorker_succ, workerStep_guard _ _ _ hdone hg]
      rcases Nat.lt_or_ge m (n + 1) with hlt | hge
      · have : m = n := by omega
        rw [this]
        exact ⟨rfl, rfl, rfl⟩
      · have hdone1 : (runWorker cfg env (n + 1)).done = true := by rw [hstep]
        rw [run_frozen_after cfg env (n + 1) hdone1 m hge, hstep]
        exact ⟨rfl, rfl, rfl⟩
    · rw [run_frozen_after cfg env n hdone m hm]
      exact ⟨rfl, rfl, rfl⟩

/-- Witness for C3: at the initial state of a worker with budget 2 the guard
passes, and the first step performs exactly one call, one sleep and one log
line. -/
theorem worker_budget_checked_before_each_point_witness :
    (runWorker cfgA envEmpty 1).calls = (runWorker cfgA envEmpty 0).calls + 1 ∧
    (runWorker cfgA envEmpty 1).sleepCount = (runWorker cfgA envEmpty 0).sleepCount + 1 ∧
    (runWorker cfgA envEmpty 1).elapsed = (runWorker cfgA envEmpty 0).elapsed +
      cfgA.interval + envEmpty.stepTime (runWorker cfgA envEmpty 0).calls :=
  ⟨((worker_budget_checked_before_each_point cfgA envEmpty 0).1
      (by decide) (by decide) (by decide)).1,
   ((worker_budget_checked_before_each_point cfgA envEmpty 0).1
      (by decide) (by decide) (by decide)).2.1,
   ((worker_budget_checked_before_each_point cfgA envEmpty 0).1
      (by decide) (by decide) (by decide)).2.2.2.1⟩

/-- C5: under the `INSERT OR IGNORE` semantics keyed on `area_id`, writing a
record whose id already exists is a no-op: after inserting `a` into a store
with no row of that id and then inserting any `b` with the same id, exactly
one row with that id exists and it retains `a`'s field values. -/
theorem insertOrIgnore_duplicate_id_noop (store : List Area) (a b : Area)
    (hid : b.ID = a.ID) (hnew : ∀ r ∈ store, r.ID ≠ a.ID) :
    insertOrIgnore (insertOrIgnore store a) b = insertOrIgnore store a ∧
    (insertOrIgnore store a).filter (fun r => r.ID == a.ID) = [a] ∧
    (∀ st : List Area, (∃ r ∈ st, r.ID = b.ID) → insertOrIgnore st b = st) := by
  have hany : store.any (fun r => r.ID == a.ID) = false := by
    simp only [List.any_eq_false, beq_iff_eq]
    exact hnew
  have h1 : insertOrIgnore store a = store ++ [a] := by
    simp [insertOrIgnore, hany]
  refine ⟨?_, ?_, ?_⟩
  · have htrue : (store ++ [a]).any (fun r => r.ID == b.ID) = true :=
      List.any_eq_true.mpr ⟨a, by simp, by simp [hid]⟩
    rw [h1]
    simp only [insertOrIgnore, htrue, if_true]
  · rw [h1, List.filter_append]
    have h2 : store.filter (fun r => r.ID == a.ID) = [] := by
      simp only [List.filter_eq_nil_iff, beq_iff_eq]
      exact hnew
    simp [h2]
  · intro st hex
    obtain ⟨r, hr, hrid⟩ := hex
    have : st.any (fun r => r.ID == b.ID) = true :=
      List.any_eq_true.mpr ⟨r, hr, by simp [hrid]⟩
    simp [insertOrIgnore, this]

/-- Witness for C5 with two distinct records that share id 1. -/
theorem insertOrIgnore_duplicate_id_noop_witness :
    recOneB.ID = recOne.ID ∧
    insertOrIgnore (insertOrIgnore [] recOne) recOneB = insertOrIgnore [] recOne ∧
    (insertOrIgnore [] recOne).filter (fun r => r.ID == recOne.ID) = [recOne] :=
  ⟨by decide,
   (insertOrIgnore_duplicate_id_noop [] recOne recOneB (by decide) (by simp)).1,
   (insertOrIgnore_duplicate_id_noop [] recOne recOneB (by decide) (by simp)).2.1⟩

/-- C6: against a client whose every call fails (e.g. always a non-200
code), a worker writes no rows, logs exactly one failure entry per scanned
point, sleeps the pacing interval after every point (failed calls
included), and terminates only by exhausting a budget. -/
theorem worker_all_failures_zero_rows_paced (cfg : WorkerConfig) (env : ScanEnv)
    (hf : ∀ k, env.fetch k = none) (n : Nat) :
    (runWorker cfg env n).store = [] ∧
    (runWorker cfg env n).logs =
      List.replicate (runWorker cfg env n).scanned LogEntry.err ∧
    (runWorker cfg env n).sleepCount = (runWorker cfg env n).scanned ∧
    ((runWorker cfg env n).done = true →
      cfg.maxBlocks ≤ (runWorker cfg env n).scanned ∨
        cfg.duration ≤ (runWorker cfg env n).elapsed) := by
  have key : ∀ m, (runWorker cfg env m).store = [] ∧
      (runWorker cfg env m).logs =
        List.replicate (runWorker cfg env m).scanned LogEntry.err := by
    intro m
    induction m with
    | zero => simp [runWorker, workerInit]
    | succ m ih =>
      rw [runWorker_succ]
      rcases hdone : (runWorker cfg env m).done with _ | _
      · by_cases hg : cfg.maxBlocks ≤ (runWorker cfg env m).scanned ∨
            cfg.duration ≤ (runWorker cfg env m).elapsed
        · rw [workerStep_guard _ _ _ hdone hg]
          exact ih
        · push_neg at hg
          rw [workerStep_body_err _ _ _ hdone hg.1 hg.2 (hf _)]
          refine ⟨ih.1, ?_⟩
          simp [ih.2, List.replicate_succ']
      · rw [workerStep_done _ _ _ hdone]
        exact ih
  exact ⟨(key n).1, (key n).2, (run_inv cfg env n).2.1, (run_inv cfg env n).2.2.2.2.2⟩

/-- Witness for C6: three steps of a worker whose calls all fail. -/
theorem worker_all_failures_zero_rows_paced_witness :
    (runWorker cfgA envNone 3).store = [] ∧
    (runWorker cfgA envNone 3).logs =
      List.replicate (runWorker cfgA envNone 3).scanned LogEntry.err ∧
    (runWorker cfgA envNone 3).sleepCount = (runWorker cfgA envNone 3).scanned :=
  ⟨(worker_all_failures_zero_rows_paced cfgA envNone (fun _ => rfl) 3).1,
   (worker_all_failures_zero_rows_paced cfgA envNone (fun _ => rfl) 3).2.1,
   (worker_all_failures_zero_rows_paced cfgA envNone (fun _ => rfl) 3).2.2.1⟩

/-- C8: a worker at center (0, 0) with step size 0.03 and a 4-point budget,
against a client that answers every call with one record of id 1, queries
exactly the four distinct coordinates (0,0), (0.03,0), (0.03,0.03), (0,0.03)
— each pair ordered as substituted into the URL template, longitude first —
and the store ends with exactly the one row. -/
theorem worker_four_point_scenario (rec : Area) (d : Nat) (hrec : rec.ID = 1) (hd : 0 < d) :
    (runWorker (cfgFourD d) (envRec rec) 5).queried =
      [(0, 0), (0.03, 0), (0.03, 0.03), (0, 0.03)] ∧
    (runWorker (cfgFourD d) (envRec rec) 5).store = [rec] ∧
    (runWorker (cfgFourD d) (envRec rec) 5).calls = 4 ∧
    (runWorker (cfgFourD d) (envRec rec) 5).done = true ∧
    (runWorker (cfgFourD d) (envRec rec) 5).queried.Nodup := by
  have e1 : runWorker (cfgFourD d) (envRec rec) 1 =
      { spiral := ⟨1, 0, 1, 1, 1, 0⟩, scanned := 1, calls := 1, sleepCount := 1,
        writeAttempts := 1, elapsed := 0, store := [rec], logs := [LogEntry.ok 1],
        queried := [(0, 0)], done := false } := by
    rw [runWorker_succ]
    rw [workerStep_body_ok _ _ _ rfl (by simp [runWorker, workerInit, cfgFourD])
      (by simpa [runWorker, workerInit, cfgFourD] using hd) [rec] rfl]
    simp [runWorker, workerInit, insertAll, insertOrIgnore, spiralNext, spiralInit,
      dirs, step, cfgFourD, envRec]
  have e2 : runWorker (cfgFourD d) (envRec rec) 2 =
      { spiral := ⟨1, 1, 2, 2, 0, 0⟩, scanned := 2, calls := 2, sleepCount := 2,
        writeAttempts := 2, elapsed := 0, store := [rec],
        logs := [LogEntry.ok 1, LogEntry.ok 1],
        queried := [(0, 0), (0.03, 0)], done := false } := by
    rw [runWorker_succ, e1]
    rw [workerStep_body_ok _ _ _ rfl (by simp [cfgFourD])
      (by simpa [cfgFourD] using hd) [rec] rfl]
    simp [insertAll, insertOrIgnore, spiralNext, dirs, step, cfgFourD, envRec]
  have e3 : runWorker (cfgFourD d) (envRec rec) 3 =
      { spiral := ⟨0, 1, 2, 2, 0, 1⟩, scanned := 3, calls := 3, sleepCount := 3,
        writeAttempts := 3, elapsed := 0, store := [rec],
        logs := [LogEntry.ok 1, LogEntry.ok 1, LogEntry.ok 1],
        queried := [(0, 0), (0.03, 0), (0.03, 0.03)], done := false } := by
    rw [runWorker_succ, e2]
    rw [workerStep_body_ok _ _ _ rfl (by simp [cfgFourD])
      (by simpa [cfgFourD] using hd) [rec] rfl]
    simp [insertAll, insertOrIgnore, spiralNext, dirs, step, cfgFourD, envRec]
  have e4 : runWorker (cfgFourD d) (envRec rec) 4 =
      { spiral := ⟨-1, 1, 3, 2, 1, 0⟩, scanned := 4, calls := 4, sleepCount := 4,
        writeAttempts := 4, elapsed := 0, store := [rec],
        logs := [LogEntry.ok 1, LogEntry.ok 1, LogEntry.ok 1, LogEntry.ok 1],
        queried := [(0, 0), (0.03, 0), (0.03, 0.03), (0, 0.03)], done := false } := by
    rw [runWorker_succ, e3]
    rw [workerStep_body_ok _ _ _ rfl (by simp [cfgFourD])
      (by simpa [cfgFourD] using hd) [rec] rfl]
    simp [insertAll, insertOrIgnore, spiralNext, dirs, step, cfgFourD, envRec]
  have e5 : runWorker (cfgFourD d) (envRec rec) 5 =
      { spiral := ⟨-1, 1, 3, 2, 1, 0⟩, scanned := 4, calls := 4, sleepCount := 4,
        writeAttempts := 4, elapsed := 0, store := [rec],
        logs := [LogEntry.ok 1, LogEntry.ok 1, LogEntry.ok 1, LogEntry.ok 1],
        queried := [(0, 0), (0.03, 0), (0.03, 0.03), (0, 0.03)], done := true } := by
    rw [runWorker_succ, e4]
    rw [workerStep_guard _ _ _ rfl (Or.inl (by simp [cfgFourD]))]
  rw [e5]
  refine ⟨rfl, rfl, rfl, rfl, ?_⟩
  simp only [List.nodup_cons, List.mem_cons, List.mem_singleton, List.not_mem_nil,
    List.nodup_nil, Prod.mk.injEq, not_or]
  norm_num

/-- Witness for C8 using the concrete record `recOne` and duration 7. -/
theorem worker_four_point_scenario_witness :
    recOne.ID = 1 ∧ 0 < 7 ∧
    (runWorker (cfgFourD 7) (envRec recOne) 5).queried =
      [(0, 0), (0.03, 0), (0.03, 0.03), (0, 0.03)] ∧
    (runWorker (cfgFourD 7) (envRec recOne) 5).store = [recOne] ∧
    (runWorker (cfgFourD 7) (envRec recOne) 5).calls = 4 :=
  ⟨by decide, by decide,
   (worker_four_point_scenario recOne 7 (by decide) (by decide)).1,
   (worker_four_point_scenario recOne 7 (by decide) (by decide)).2.1,
   (worker_four_point_scenario recOne 7 (by decide) (by decide)).2.2.1⟩

/-- Counterexample for C9: one step of a worker whose fetch succeeds with a
record but whose store write fails.  The record is lost (empty store), yet
the log holds only the ordinary per-point success line — no entry records
the write failure, because `spiralScan` discards the `Exec` error with
`_, _ =` — and the worker keeps running. -/
theorem write_failure_not_logged :
    (runWorker cfgA envWriteFail 1).store = [] ∧
    (runWorker cfgA envWriteFail 1).logs = [LogEntry.ok 1] ∧
    (runWorker cfgA envWriteFail 1).done = false := by decide

/-- C9 (amended): a failed store write is silently discarded: the record is
lost for that step, no log entry is produced for the failure (the log still
holds exactly the one ordinary line per scanned point), and the worker
continues — it terminates only by exhausting a budget. -/
theorem write_failure_silent_continue (cfg : WorkerConfig) (env : ScanEnv)
    (hw : ∀ w, env.writeOk w = false) (n : Nat) :
    (runWorker cfg env n).store = [] ∧
    (runWorker cfg env n).logs.length = (runWorker cfg env n).scanned ∧
    ((runWorker cfg env n).done = true →
      cfg.maxBlocks ≤ (runWorker cfg env n).scanned ∨
        cfg.duration ≤ (runWorker cfg env n).elapsed) := by
  have hins : ∀ (areas : List Area) (w : Nat) (st : List Area),
      (insertAll env w st areas).1 = st := by
    intro areas
    induction areas with
    | nil => intro w st; rfl
    | cons a rest ih => intro w st; simp [insertAll, hw, ih]
  have key : ∀ m, (runWorker cfg env m).store = [] := by
    intro m
    induction m with
    | zero => rfl
    | succ m ih =>
      rw [runWorker_succ]
      rcases hdone : (runWorker cfg env m).done with _ | _
      · by_cases hg : cfg.maxBlocks ≤ (runWorker cfg env m).scanned ∨
            cfg.duration ≤ (runWorker cfg env m).elapsed
        · rw [workerStep_guard _ _ _ hdone hg]
          exact ih
        · push_neg at hg
          rcases hf : env.fetch (runWorker cfg env m).calls with _ | areas
          · rw [workerStep_body_err _ _ _ hdone hg.1 hg.2 hf]
            exact ih
          · rw [workerStep_body_ok _ _ _ hdone hg.1 hg.2 areas hf]
            simpa [hins] using ih
      · rw [workerStep_done _ _ _ hdone]
        exact ih
  exact ⟨key n, (run_inv cfg env n).2.2.1, (run_inv cfg env n).2.2.2.2.2⟩

/-- Witness for C9's amended statement with all writes failing. -/
theorem write_failure_silent_continue_witness :
    (runWorker cfgA envWriteFail 2).store = [] ∧
    (runWorker cfgA envWriteFail 2).logs.length = (runWorker cfgA envWriteFail 2).scanned :=
  ⟨(write_failure_silent_continue cfgA envWriteFail (fun _ => rfl) 2).1,
   (write_failure_silent_continue cfgA envWriteFail (fun _ => rfl) 2).2.1⟩

/-- Counterexample for C7: with a non-empty credential, the user answering
"n" to the confirmation prompt also prevents the whole scan from starting
(no table creation, no workers), so the missing-credential check is not the
only condition that prevents the scan from starting. -/
theorem startDataCollection_decline_blocks_start :
    ("x" : String) ≠ "" ∧
    (startDataCollection "x" "n" true).workersLaunched = 0 ∧
    (startDataCollection "x" "n" true).createdTable = false ∧
    (startDataCollection "x" "n" true).outcome = StartOutcome.cancelled := by decide

/-- C7 (amended): an empty Authorization aborts the collection before the
table is created and before any worker launches; in addition, the scan also
fails to start when the user declines the confirmation prompt or the
database cannot be opened — workers launch exactly when the credential is
non-empty, the lowercased confirmation is "y" or "yes", and the store
opens. -/
theorem startDataCollection_abort_conditions (auth confirm : String) (ok : Bool) :
    (auth = "" → startDataCollection auth confirm ok =
      ⟨StartOutcome.missingAuth, false, 0⟩) ∧
    (0 < (startDataCollection auth confirm ok).workersLaunched ↔
      auth ≠ "" ∧ (toLowerStr confirm = "y" ∨ toLowerStr confirm = "yes") ∧ ok = true) ∧
    ((startDataCollection auth confirm ok).createdTable = true ↔
      auth ≠ "" ∧ (toLowerStr confirm = "y" ∨ toLowerStr confirm = "yes") ∧ ok = true) := by
  by_cases h1 : auth = ""
  · simp [startDataCollection, h1]
  · by_cases h2 : toLowerStr confirm ≠ "y" ∧ toLowerStr confirm ≠ "yes"
    · have hno : ¬(toLowerStr confirm = "y" ∨ toLowerStr confirm = "yes") := by tauto
      simp [startDataCollection, h1, h2, hno]
    · have h2' : toLowerStr confirm = "y" ∨ toLowerStr confirm = "yes" := by tauto
      have hlen : 0 < centers.length := by decide
      rcases Bool.eq_false_or_eq_true ok with h3 | h3
      · simp [startDataCollection, h1, h2, h2', h3]
        exact hlen
      · simp [startDataCollection, h1, h2, h2', h3]

/-- Witness for C7's amended statement: with credential "token",
confirmation "y" and a working store, workers launch. -/
theorem startDataCollection_abort_conditions_witness :
    0 < (startDataCollection "token" "y" true).workersLaunched :=
  (startDataCollection_abort_conditions "token" "y" true).2.1.mpr
    ⟨by decide, Or.inl (by decide), rfl⟩

/-- Counterexample for C4: `badBodyFields` is a valid-JSON body whose
top-level `code` field is 200, yet `fetchAreas` fails, because the typed
decode of the record list fails (an ill-typed `totalDeviceNum`).  So
failure is not equivalent to "HTTP failed, body not valid JSON, or code
not 200". -/
theorem fetchAreas_valid_json_code200_failure :
    lookupField badBodyFields "code" = some (Json.num 200) ∧
    fetchAreas (some (some (Json.obj badBodyFields))) = none := by
  constructor
  · rfl
  · rfl

/-- C4 (amended): `fetchAreas` fails exactly when the HTTP exchange fails
(including the 8-second timeout), the body is not valid JSON, the body
fails the typed decode into the `ApiResponse`/`Area` structs, or the
decoded top-level code is not 200; otherwise it returns the decoded
`data.records` array, which may be empty. -/
theorem fetchAreas_failure_characterization (r : Option (Option Json)) :
    (fetchAreas r = none ↔
      r = none ∨ r = some none ∨
      (∃ j, r = some (some j) ∧ decodeApiResponse j = none) ∨
      (∃ j res, r = some (some j) ∧ decodeApiResponse j = some res ∧ res.code ≠ 200)) ∧
    (∀ j res, r = some (some j) → decodeApiResponse j = some res → res.code = 200 →
      fetchAreas r = some res.records) := by
  constructor
  · constructor
    · intro hfail
      match r with
      | none => exact Or.inl rfl
      | some none => exact Or.inr (Or.inl rfl)
      | some (some j) =>
        rcases hdec : decodeApiResponse j with _ | res
        · exact Or.inr (Or.inr (Or.inl ⟨j, rfl, hdec⟩))
        · refine Or.inr (Or.inr (Or.inr ⟨j, res, rfl, hdec, ?_⟩))
          intro hc
          simp [fetchAreas, hdec, hc] at hfail
    · intro h
      rcases h with rfl | rfl | ⟨j, rfl, hdec⟩ | ⟨j, res, rfl, hdec, hcode⟩
      · rfl
      · rfl
      · simp [fetchAreas, hdec]
      · simp [fetchAreas, hdec, hcode]
  · intro j res hr hdec hcode
    subst hr
    simp [fetchAreas, hdec, hcode]

/-- Witness for C4's amended statement: the well-formed body decodes and
its records are returned. -/
theorem fetchAreas_failure_characterization_witness :
    fetchAreas (some (some goodBody)) = some goodResponse.records :=
  (fetchAreas_failure_characterization (some (some goodBody))).2
    goodBody goodResponse rfl (by decide) (by decide)

theorem decodeArea_longitude_err (fields : List (String × Json))
    (h : getFloatStringField fields "longitude" = none) :
    decodeArea (Json.obj fields) = none := by
  rcases h1 : getIntField fields "id" with _ | v1
  · simp [decodeArea, h1]
  · rcases h2 : getStringField fields "areaName" with _ | v2
    · simp [decodeArea, h1, h2]
    · simp [decodeArea, h1, h2, h]

theorem decodeArea_latitude_err (fields : List (String × Json))
    (h : getFloatStringField fields "latitude" = none) :
    decodeArea (Json.obj fields) = none := by
  rcases h1 : getIntField fields "id" with _ | v1
  · simp [decodeArea, h1]
  · rcases h2 : getStringField fields "areaName" with _ | v2
    · simp [decodeArea, h1, h2]
    · rcases h3 : getFloatStringField fields "longitude" with _ | v3
      · simp [decodeArea, h1, h2, h3]
      · simp [decodeArea, h1, h2, h3, h]

/-- C10: the `,string` struct tags force `latitude` and `longitude` to be
JSON strings: whenever a record object decodes successfully, neither field
is present as a bare JSON number; and on the concrete body `numLatFields`
(code 200, everything else well-formed, latitude a bare number) the whole
call fails. -/
theorem latitude_longitude_require_string_json :
    (∀ (fields : List (String × Json)) (a : Area) (q : ℚ),
      decodeArea (Json.obj fields) = some a →
      lookupField fields "latitude" ≠ some (Json.num q) ∧
      lookupField fields "longitude" ≠ some (Json.num q)) ∧
    fetchAreas (some (some (Json.obj numLatFields))) = none := by
  constructor
  · intro fields a q hdec
    constructor
    · intro hlook
      have hnone : getFloatStringField fields "latitude" = none := by
        simp [getFloatStringField, hlook]
      rw [decodeArea_latitude_err fields hnone] at hdec
      cases hdec
    · intro hlook
      have hnone : getFloatStringField fields "longitude" = none := by
        simp [getFloatStringField, hlook]
      rw [decodeArea_longitude_err fields hnone] at hdec
      cases hdec
  · rfl

/-- Witness for C10: the well-formed record fields decode to `goodRec`, so
by the theorem their latitude and longitude entries are not bare numbers. -/
theorem latitude_longitude_require_string_json_witness :
    lookupField goodRecFields "latitude" ≠ some (Json.num 0) ∧
    lookupField goodRecFields "longitude" ≠ some (Json.num 0) :=
  latitude_longitude_require_string_json.1 goodRecFields goodRec 0 (by decide)
